import Mathlib

set_option maxRecDepth 100000
set_option linter.unusedVariables false

/-!
Verification of the VR-RPGAI conversational orchestrator against its design
specification.  The definitions below are a shallow embedding of the Python
sources: `app/providers/manager.py` (backend routing), `app/services/tts_service.py`
(speech synthesis and its content-addressed cache, including the MD5 hash used
for cache keys), `app/services/memory_service.py` (the Mem0 gateway wrapper),
and `app/services/conversation_service_mem0.py` (the per-turn orchestrator).
Stateful or effectful Python code is modelled by explicit state passing and by
oracles describing the outcomes of external calls (database commit, LLM
backend, Wyoming audio session, Mem0 engine).
-/

/-! ## 32-bit arithmetic primitives (Nat with explicit mod 2^32)

The MD5 hash in `tts_service._get_cache_path` works on 32-bit machine words.
We model words as `Nat` reduced mod `2^32`, with fuel-based bitwise operations
so that everything reduces inside the kernel. -/

def m32 : Nat := 4294967296

/-- Combine the low `fuel` bits of `a` and `b` with the bit-level function `f`. -/
def bitsZip (f : Nat → Nat → Nat) : Nat → Nat → Nat → Nat
  | 0, _, _ => 0
  | k + 1, a, b => f (a % 2) (b % 2) + 2 * bitsZip f k (a / 2) (b / 2)

def land32 (a b : Nat) : Nat := bitsZip (fun x y => x * y) 32 a b

def lor32 (a b : Nat) : Nat := bitsZip (fun x y => x + y - x * y) 32 a b

def lxor32 (a b : Nat) : Nat := bitsZip (fun x y => (x + y) % 2) 32 a b

def lnot32 (a : Nat) : Nat := 4294967295 - a % m32

/-- Rotate a 32-bit word left by `s` bits. -/
def rotl32 (x s : Nat) : Nat := (x % m32 * 2 ^ s + x % m32 / 2 ^ (32 - s)) % m32

/-! ## MD5 (RFC 1321), as used by `hashlib.md5` in `tts_service.py` -/

def md5K : List Nat :=
  [3614090360, 3905402710, 606105819, 3250441966, 4118548399, 1200080426, 2821735955, 4249261313,
   1770035416, 2336552879, 4294925233, 2304563134, 1804603682, 4254626195, 2792965006, 1236535329,
   4129170786, 3225465664, 643717713, 3921069994, 3593408605, 38016083, 3634488961, 3889429448,
   568446438, 3275163606, 4107603335, 1163531501, 2850285829, 4243563512, 1735328473, 2368359562,
   4294588738, 2272392833, 1839030562, 4259657740, 2763975236, 1272893353, 4139469664, 3200236656,
   681279174, 3936430074, 3572445317, 76029189, 3654602809, 3873151461, 530742520, 3299628645,
   4096336452, 1126891415, 2878612391, 4237533241, 1700485571, 2399980690, 4293915773, 2240044497,
   1873313359, 4264355552, 2734768916, 1309151649, 4149444226, 3174756917, 718787259, 3951481745]

def md5S : List Nat :=
  [7, 12, 17, 22, 7, 12, 17, 22, 7, 12, 17, 22, 7, 12, 17, 22,
   5, 9, 14, 20, 5, 9, 14, 20, 5, 9, 14, 20, 5, 9, 14, 20,
   4, 11, 16, 23, 4, 11, 16, 23, 4, 11, 16, 23, 4, 11, 16, 23,
   6, 10, 15, 21, 6, 10, 15, 21, 6, 10, 15, 21, 6, 10, 15, 21]

/-- One MD5 round: state is `(a, b, c, d)`; `M` is the 16-word message block. -/
def md5Round (M : List Nat) (st : Nat × Nat × Nat × Nat) (i : Nat) :
    Nat × Nat × Nat × Nat :=
  match st with
  | (a, b, c, d) =>
    let f :=
      if i < 16 then lor32 (land32 b c) (land32 (lnot32 b) d)
      else if i < 32 then lor32 (land32 b d) (land32 c (lnot32 d))
      else if i < 48 then lxor32 (lxor32 b c) d
      else lxor32 c (lor32 b (lnot32 d))
    let g :=
      if i < 16 then i
      else if i < 32 then (5 * i + 1) % 16
      else if i < 48 then (3 * i + 5) % 16
      else (7 * i) % 16
    let tmp := (a + f + md5K.getD i 0 + M.getD g 0) % m32
    let nb := (b + rotl32 tmp (md5S.getD i 0)) % m32
    (d, nb, b, c)

/-- Decode a byte list into little-endian 32-bit words, four bytes per word. -/
def leWords : List Nat → List Nat
  | b0 :: b1 :: b2 :: b3 :: rest =>
      (b0 + 256 * b1 + 65536 * b2 + 16777216 * b3) :: leWords rest
  | _ => []

/-- Process one 64-byte block, updating the running MD5 state. -/
def md5Block (st : Nat × Nat × Nat × Nat) (block : List Nat) :
    Nat × Nat × Nat × Nat :=
  let M := leWords block
  match (List.range 64).foldl (md5Round M) st, st with
  | (a, b, c, d), (a0, b0, c0, d0) =>
      ((a0 + a) % m32, (b0 + b) % m32, (c0 + c) % m32, (d0 + d) % m32)

/-- Split a byte list into 64-byte chunks; `fuel` bounds the recursion and is
instantiated with the list length (each step consumes at least one byte). -/
def chunks64Aux : Nat → List Nat → List (List Nat)
  | 0, _ => []
  | _ + 1, [] => []
  | fuel + 1, l => l.take 64 :: chunks64Aux fuel (l.drop 64)

def chunks64 (l : List Nat) : List (List Nat) := chunks64Aux l.length l

/-- MD5 padding: append `0x80`, zero bytes up to 56 mod 64, then the 64-bit
little-endian bit length. -/
def md5Pad (msg : List Nat) : List Nat :=
  let bitLen := 8 * msg.length
  let zeros := (55 + 64 - msg.length % 64) % 64
  msg ++ 128 :: List.replicate zeros 0 ++
    ((List.range 8).map fun i => bitLen / 256 ^ i % 256)

def md5Init : Nat × Nat × Nat × Nat := (1732584193, 4023233417, 2562383102, 271733878)

def md5Digest (msg : List Nat) : Nat × Nat × Nat × Nat :=
  (chunks64 (md5Pad msg)).foldl md5Block md5Init

def hexChar (n : Nat) : Char := if n < 10 then Char.ofNat (48 + n) else Char.ofNat (87 + n)

def byteHex (b : Nat) : List Char := [hexChar (b / 16 % 16), hexChar (b % 16)]

/-- The four bytes of a 32-bit word, little-endian. -/
def wordLEBytes (w : Nat) : List Nat := [w % 256, w / 256 % 256, w / 65536 % 256, w / 16777216 % 256]

/-- Lowercase hex digest (the Python `hexdigest()`). -/
def md5HexBytes (msg : List Nat) : String :=
  match md5Digest msg with
  | (a, b, c, d) =>
      ⟨((wordLEBytes a ++ wordLEBytes b ++ wordLEBytes c ++ wordLEBytes d).map byteHex).flatten⟩

/-- UTF-8 encoding of one character (Python `str.encode()`). -/
def utf8Bytes (c : Char) : List Nat :=
  let n := c.toNat
  if n < 128 then [n]
  else if n < 2048 then [192 + n / 64, 128 + n % 64]
  else if n < 65536 then [224 + n / 4096, 128 + n / 64 % 64, 128 + n % 64]
  else [240 + n / 262144, 128 + n / 4096 % 64, 128 + n / 64 % 64, 128 + n % 64]

def strBytes (s : String) : List Nat := (s.data.map utf8Bytes).flatten

def md5Hex (s : String) : String := md5HexBytes (strBytes s)

/-! ## Backend router — `app/providers/manager.py`, `LLMProviderManager.generate`

The manager holds `self.providers`, a Python dict from provider name to client;
we embed it as an insertion-ordered association list, so `available[0]` is the
head.  A client is represented by the `LLMResponse` its `generate` coroutine
would return; `managerGenerate` returns `(invoked provider name, response)` on
success, so an `Except.error` result means no client's `generate` was invoked. -/

structure LLMResponse where
  content : String
  provider : String
  model : String
  deriving DecidableEq

/-- Association-list lookup, embedding Python dict indexing / `in` tests. -/
def assocLookup {α : Type} : List (String × α) → String → Option α
  | [], _ => none
  | (n, v) :: rest, name => if n = name then some v else assocLookup rest name

/-- `LLMProviderManager.generate`: resolve the requested provider name (falsy
request means the configured default), fall back to the first configured
provider when the resolved name is absent, and raise
`ValueError("No LLM providers are configured")` when the map is empty
(the spec's `NoBackendsAvailable`). -/
def managerGenerate (providers : List (String × LLMResponse))
    (defaultProvider : String) (requested : Option String) :
    Except String (String × LLMResponse) :=
  let provider :=
    match requested with
    | none => defaultProvider
    | some s => if s = "" then defaultProvider else s
  match assocLookup providers provider with
  | some llm => .ok (provider, llm)
  | none =>
    match providers with
    | [] => .error "No LLM providers are configured"
    | (n, llm) :: _ => .ok (n, llm)

/-! ## Speech synthesis — `app/services/tts_service.py`, `TTSService`

The on-disk cache is a list of `(path, wav file)` pairs; the Wyoming network
session is an oracle: either a connection error or the list of events the
server sends.  `synthesize` returns the optional artifact path, the updated
file system, and how many network sessions were opened (0 or 1). -/

/-- Whitespace as stripped by Python `str.strip()` (ASCII whitespace). -/
def isPySpace (c : Char) : Bool :=
  c == ' ' || c == '\t' || c == '\n' || c == '\r' || c == Char.ofNat 11 || c == Char.ofNat 12

/-- Python `str.strip()`. -/
def pyStrip (s : String) : String :=
  ⟨((s.data.dropWhile isPySpace).reverse.dropWhile isPySpace).reverse⟩

/-- Python `voice or "default"` (`None` and the empty string are falsy). -/
def voiceOrDefault : Option String → String
  | none => "default"
  | some v => if v = "" then "default" else v

structure TTSService where
  cacheDir : String
  deriving DecidableEq

/-- `TTSService._get_cache_path`: `<cacheDir>/<md5(voice:text)>.wav`. -/
def TTSService.getCachePath (svc : TTSService) (text : String) (voice : String) : String :=
  svc.cacheDir ++ "/" ++ md5Hex (voice ++ ":" ++ text) ++ ".wav"

/-- Events read from the Wyoming stream (`audio-start`, `audio-chunk`,
`audio-stop`, anything else); `audio-start` may carry audio parameters. -/
inductive WyEvent
  | audioStart (rate width channels : Option Nat)
  | audioChunk (data : List Nat)
  | audioStop
  | other (eventType : String)
  deriving DecidableEq

structure AudioParams where
  rate : Nat
  width : Nat
  channels : Nat
  deriving DecidableEq

/-- Defaults used before `audio-start` arrives: 16 kHz, 16-bit, mono. -/
def defaultAudioParams : AudioParams := ⟨16000, 2, 1⟩

structure WavFile where
  params : AudioParams
  data : List Nat
  deriving DecidableEq

/-- The receive loop of `TTSService.synthesize`: read events until `audio-stop`
(returning parameters and concatenated chunk data) or a closed connection
(`read_event` returning `None`, modelled by running out of events). -/
def recvLoop : List WyEvent → AudioParams → List Nat → Option (AudioParams × List Nat)
  | [], _, _ => none
  | e :: rest, p, acc =>
    match e with
    | .audioStop => some (p, acc)
    | .audioStart r w c => recvLoop rest ⟨r.getD p.rate, w.getD p.width, c.getD p.channels⟩ acc
    | .audioChunk d => recvLoop rest p (acc ++ d)
    | .other _ => recvLoop rest p acc

structure SynthOutcome where
  result : Option String
  fs : List (String × WavFile)
  netCalls : Nat
  deriving DecidableEq

/-- `TTSService.synthesize`: empty/whitespace text is rejected up front; a
cache hit with `use_cache` returns the cached path with no session; otherwise
one Wyoming session is opened, events are folded by `recvLoop`, an empty chunk
sequence is a failure, and otherwise the WAV file is written under the cache
key and its path returned.  Connection errors yield `none`. -/
def TTSService.synthesize (svc : TTSService) (session : Except String (List WyEvent))
    (fs : List (String × WavFile)) (text : String) (voice : Option String)
    (use_cache : Bool) : SynthOutcome :=
  if text = "" || pyStrip text = "" then ⟨none, fs, 0⟩
  else
    let cache_path := svc.getCachePath text (voiceOrDefault voice)
    if use_cache && (assocLookup fs cache_path).isSome then ⟨some cache_path, fs, 0⟩
    else
      match session with
      | .error _ => ⟨none, fs, 1⟩
      | .ok events =>
        match recvLoop events defaultAudioParams [] with
        | none => ⟨none, fs, 1⟩
        | some (p, audio) =>
          if audio = [] then ⟨none, fs, 1⟩
          else ⟨some cache_path, (cache_path, ⟨p, audio⟩) :: fs, 1⟩

/-! ## Data model — `app/models.py` fragments used by the orchestrator -/

structure ChatMessage where
  role : String
  content : String
  deriving DecidableEq

structure CharacterDocument where
  filename : String
  content : String
  deriving DecidableEq

structure Character where
  id : String
  name : String
  system_prompt : String
  documents : List CharacterDocument
  llm_provider : Option String
  llm_model : Option String
  voice_id : Option String
  deriving DecidableEq

/-- The per-turn situational snapshot (`game_context` dict); a `none` field is
an absent key.  An absent or empty dict is modelled as `none` at the use site. -/
structure GameContext where
  location : Option String
  weather : Option String
  time_of_day : Option String
  npc_health : Option Int
  player_health : Option Int
  player_reputation : Option Int
  npc_mood : Option String
  recent_event : Option String
  nearby_npcs : List String
  custom_data : List (String × String)
  deriving DecidableEq

/-- Python string slicing `s[:n]` (by characters). -/
def pyTake (n : Nat) (s : String) : String := ⟨s.data.take n⟩

/-! ## Memory gateway — `app/services/memory_service.py`

The Mem0 engine is an oracle: an `Except` describing whether the underlying
`search`/`get_all`/`add` call raised, and the dict it returned otherwise
(`result.get('results', [])` reads an optional `results` key). -/

/-- A Mem0 memory record; `mem.get('memory', mem.get('data', ''))`. -/
structure MemoryRecord where
  memoryField : Option String
  dataField : Option String
  deriving DecidableEq

def memoryText (m : MemoryRecord) : String := m.memoryField.getD (m.dataField.getD "")

structure EngineSearchResult where
  results : Option (List MemoryRecord)
  deriving DecidableEq

namespace MemoryService

/-- `MemoryService.get_character_memories`: returns the engine's `results`
list, and the empty list on any engine exception. -/
def get_character_memories (engine : Except String EngineSearchResult) : List MemoryRecord :=
  match engine with
  | .error _ => []
  | .ok r => r.results.getD []

/-- `MemoryService.get_user_global_memories`: same failure handling, user-global scope. -/
def get_user_global_memories (engine : Except String EngineSearchResult) : List MemoryRecord :=
  match engine with
  | .error _ => []
  | .ok r => r.results.getD []

/-- The arguments `MemoryService.add_character_memory` passes to `Memory.add`:
subject (`user_id`) as given, agent scope `character_<character_id>`. -/
structure Mem0AddCall where
  user_id : String
  agent_id : String
  messages : List ChatMessage
  deriving DecidableEq

def add_character_memory (character_id user_id : String)
    (messages : List ChatMessage) : Mem0AddCall :=
  ⟨user_id, "character_" ++ character_id, messages⟩

end MemoryService

/-- `_extract_memories_from_exchange`: wraps the just-finished exchange as a
two-message list and hands it to `add_character_memory`. -/
def extract_memories_from_exchange (character_id user_id user_message assistant_message : String) :
    MemoryService.Mem0AddCall :=
  MemoryService.add_character_memory character_id user_id
    [⟨"user", user_message⟩, ⟨"assistant", assistant_message⟩]

/-! ## Context assembly — `send_message_with_memory`, steps 2–3 -/

/-- The f-string appended per document:
`f"\n### {doc.filename}\n{doc.content[:2000]}\n"`. -/
def docEntry (d : CharacterDocument) : String :=
  "\n### " ++ d.filename ++ "\n" ++ pyTake 2000 d.content ++ "\n"

/-- The per-document f-string of the legacy `conversation_service.send_message`
path: `f"\n### {doc.filename}\n{doc.content}\n"`, no slice. -/
def docEntryLegacy (d : CharacterDocument) : String :=
  "\n### " ++ d.filename ++ "\n" ++ d.content ++ "\n"

/-- The `**Reference Documents:**` section: appended only when the character
has documents; each body is sliced to its first 2000 characters. -/
def addDocumentsSection (s : String) (docs : List CharacterDocument) : String :=
  if docs.isEmpty then s
  else docs.foldl (fun acc d => acc ++ docEntry d)
    (s ++ "\n\n**Reference Documents:**\n")

/-- The legacy context builder in `conversation_service.send_message` inserts
document bodies whole, with no slice. -/
def addDocumentsSectionLegacy (s : String) (docs : List CharacterDocument) : String :=
  if docs.isEmpty then s
  else docs.foldl (fun acc d => acc ++ docEntryLegacy d)
    (s ++ "\n\n**Reference Documents:**\n")

/-- One memory bullet: `f"- {memory_text}\n"`. -/
def memEntry (m : MemoryRecord) : String := "- " ++ memoryText m ++ "\n"

/-- `**What you remember about this user:**` block, one bullet per memory;
skipped entirely when the list is empty. -/
def addCharacterMemoriesSection (s : String) (mems : List MemoryRecord) : String :=
  if mems.isEmpty then s
  else mems.foldl (fun acc m => acc ++ memEntry m)
    (s ++ "\n\n**What you remember about this user:**\n")

/-- `**General facts about this user:**` block; skipped when empty. -/
def addGlobalMemoriesSection (s : String) (mems : List MemoryRecord) : String :=
  if mems.isEmpty then s
  else mems.foldl (fun acc m => acc ++ memEntry m)
    (s ++ "\n\n**General facts about this user:**\n")

/-- One labelled line for a truthy string field. -/
def optStrLine (label : String) (v : Option String) : String :=
  match v with
  | some x => if x = "" then "" else label ++ x ++ "\n"
  | none => ""

/-- One labelled line for a field tested with `is not None`. -/
def optIntLine (label : String) (suffix2 : String) (v : Option Int) : String :=
  match v with
  | some x => label ++ toString x ++ suffix2 ++ "\n"
  | none => ""

/-- `**Current Game State:**` block, rendered field by field in source order. -/
def addGameContextSection (s : String) (gc : Option GameContext) : String :=
  match gc with
  | none => s
  | some g =>
    s ++ "\n\n**Current Game State:**\n"
      ++ optStrLine "Location: " g.location
      ++ optStrLine "Weather: " g.weather
      ++ optStrLine "Time: " g.time_of_day
      ++ optIntLine "Your health: " "%" g.npc_health
      ++ optIntLine "Player health: " "%" g.player_health
      ++ optIntLine "Player reputation: " "" g.player_reputation
      ++ optStrLine "Your mood: " g.npc_mood
      ++ optStrLine "Recent event: " g.recent_event
      ++ (if g.nearby_npcs.isEmpty then ""
          else "Nearby NPCs: " ++ String.intercalate ", " g.nearby_npcs ++ "\n")
      ++ g.custom_data.foldl (fun acc kv => acc ++ (kv.1 ++ ": " ++ kv.2 ++ "\n")) ""

/-- The cross-persona annotation appended when the sender resolves to a character. -/
def crossPersonaNote (senderName : String) : String :=
  "\n\n**Note:** This message is from " ++ senderName ++
    ", another character in the world. Respond as if speaking to them directly.\n"

/-- The full system message of a turn.  `resolvedSender` is the sending
character when `from_character_id` was supplied and found. -/
def buildSystemContent (c : Character) (charMems gmems : List MemoryRecord)
    (gc : Option GameContext) (resolvedSender : Option Character) : String :=
  let s := c.system_prompt
  let s := addDocumentsSection s c.documents
  let s := addCharacterMemoriesSection s charMems
  let s := addGlobalMemoriesSection s gmems
  let s := addGameContextSection s gc
  match resolvedSender with
  | some fc => s ++ crossPersonaNote fc.name
  | none => s

/-! ## Turn orchestrator — `send_message_with_memory`

External effects are oracles in `TurnEnv`: the character lookup, the two Mem0
recalls, the recent-message query, the sender-character lookup, the LLM call,
the database commit, and the TTS call.  The function returns the value the
coroutine returns to the caller, or the exception it raises. -/

structure TurnEnv where
  character : Option Character
  mem0Enabled : Bool
  charMemEngine : Except String EngineSearchResult
  globalMemEngine : Except String EngineSearchResult
  recentMessages : List ChatMessage
  fromCharLookup : Option Character
  genOutcome : Except String LLMResponse
  commitOk : Bool
  ttsEnabled : Bool
  ttsOutcome : Option String

inductive TurnError
  | characterNotFound
  | generationFailed (msg : String)
  | commitFailed
  deriving DecidableEq

structure TurnResult where
  reply : String
  conversationUserId : String
  committedMessages : List ChatMessage
  llmMessages : List ChatMessage
  systemContent : String
  audioFile : Option String
  memoryExtraction : Option MemoryService.Mem0AddCall
  deriving DecidableEq

/-- Step 1 of a turn: character-scoped recall, `[]` when Mem0 is disabled and,
through `get_character_memories`, `[]` on engine failure. -/
def turnCharMems (env : TurnEnv) : List MemoryRecord :=
  if env.mem0Enabled then MemoryService.get_character_memories env.charMemEngine else []

/-- Step 1 of a turn: user-global recall, same degradation. -/
def turnGlobalMems (env : TurnEnv) : List MemoryRecord :=
  if env.mem0Enabled then MemoryService.get_user_global_memories env.globalMemEngine else []

/-- The sending character, when `from_character_id` was supplied and resolved. -/
def resolvedSender (from_character_id : Option String) (env : TurnEnv) : Option Character :=
  match from_character_id with
  | none => none
  | some _ => env.fromCharLookup

/-- The `user_id` after the cross-persona reassignment
`user_id = f"character_{from_character_id}"` (only when the sender resolves). -/
def effectiveUserId (user_id : String) (from_character_id : Option String)
    (env : TurnEnv) : String :=
  match from_character_id, env.fromCharLookup with
  | some fid, some _ => "character_" ++ fid
  | _, _ => user_id

def send_message_with_memory (character_id user_id user_message : String)
    (game_context : Option GameContext) (from_character_id : Option String)
    (env : TurnEnv) : Except TurnError TurnResult :=
  match env.character with
  | none => .error .characterNotFound
  | some character =>
    let system_content :=
      buildSystemContent character (turnCharMems env) (turnGlobalMems env)
        game_context (resolvedSender from_character_id env)
    let llm_messages :=
      ⟨"system", system_content⟩ :: env.recentMessages ++ [⟨"user", user_message⟩]
    match env.genOutcome with
    | .error e => .error (.generationFailed e)
    | .ok response =>
      if env.commitOk then
        let audio_file :=
          if env.ttsEnabled then env.ttsOutcome.map (fun p => p.replace "/app/" "")
          else none
        let extraction :=
          if env.mem0Enabled then
            some (extract_memories_from_exchange character_id
              (effectiveUserId user_id from_character_id env) user_message response.content)
          else none
        .ok ⟨response.content, user_id,
          [⟨"user", user_message⟩, ⟨"assistant", response.content⟩],
          llm_messages, system_content, audio_file, extraction⟩
      else .error .commitFailed


/-! ## Concrete fixtures used by the witness theorems -/

def sampleResponseB : LLMResponse := ⟨"hello there", "ollama", "llama3.2:3b"⟩

def sampleTTS : TTSService := ⟨"/app/audio_cache"⟩

/-- `audio-stop` (or a closed stream) arrives before any `audio-chunk`. -/
def stopBeforeChunk : List WyEvent → Bool
  | [] => true
  | WyEvent.audioStop :: _ => true
  | WyEvent.audioChunk _ :: _ => false
  | _ :: rest => stopBeforeChunk rest

def sampleCharacter : Character :=
  ⟨"char-1", "Ara", "You are Ara.", [], none, none, none⟩

def sampleEnvCommitFail : TurnEnv :=
  ⟨some sampleCharacter, true, .error "down", .error "down", [], none,
    .ok sampleResponseB, false, false, none⟩

def sampleEnvMemFail : TurnEnv :=
  ⟨some sampleCharacter, true, .error "engine down", .error "engine down", [], none,
    .ok sampleResponseB, true, false, none⟩

def bigBody : String := ⟨List.replicate 5000 'a'⟩

def sampleDocChar : Character :=
  ⟨"char-2", "Sage", "You are Sage.", [⟨"lore.txt", bigBody⟩], none, none, none⟩

def sampleEnvDoc : TurnEnv :=
  ⟨some sampleDocChar, false, .error "off", .error "off", [], none,
    .ok sampleResponseB, true, false, none⟩

def sampleSender : Character :=
  ⟨"char-9", "Borin", "You are Borin.", [], none, none, none⟩

def sampleEnvCross : TurnEnv :=
  ⟨some sampleCharacter, true, .error "down", .error "down", [], some sampleSender,
    .ok sampleResponseB, true, false, none⟩

/-! ## Helper lemmas -/

example : md5Hex "abc" = "900150983cd24fb0d6963f7d28e17f72" := by decide

lemma string_data_inj {s t : String} (h : s.data = t.data) : s = t := by
  cases s; cases t; exact congrArg String.mk h

lemma string_append_cancel_left {a x y : String} (h : a ++ x = a ++ y) : x = y := by
  have hd := congrArg String.data h
  simp only [String.data_append] at hd
  exact string_data_inj (List.append_cancel_left hd)

lemma string_append_cancel_right {a x y : String} (h : x ++ a = y ++ a) : x = y := by
  have hd := congrArg String.data h
  simp only [String.data_append] at hd
  exact string_data_inj (List.append_cancel_right hd)

lemma foldl_append_extend {α : Type} (g : α → String) (l : List α) (init : String) :
    ∃ t, l.foldl (fun acc x => acc ++ g x) init = init ++ t := by
  induction l generalizing init with
  | nil => exact ⟨"", (String.append_empty init).symm⟩
  | cons a tl ih =>
    obtain ⟨t, ht⟩ := ih (init ++ g a)
    exact ⟨g a ++ t, by rw [List.foldl_cons, ht, String.append_assoc]⟩

lemma foldl_append_mem {α : Type} (g : α → String) (l : List α) (init : String)
    (d : α) (hd : d ∈ l) :
    ∃ u v, l.foldl (fun acc x => acc ++ g x) init = u ++ g d ++ v := by
  obtain ⟨l1, l2, rfl⟩ := List.append_of_mem hd
  rw [List.foldl_append, List.foldl_cons]
  obtain ⟨t, ht⟩ := foldl_append_extend g l2 (l1.foldl (fun acc x => acc ++ g x) init ++ g d)
  exact ⟨l1.foldl (fun acc x => acc ++ g x) init, t, ht⟩

/-! ## C3 -/

/-- C3 — Fatal floor: with zero configured backends, `LLMProviderManager.generate`
fails with the `No LLM providers are configured` error (`NoBackendsAvailable`)
whatever backend was requested; the `Except.error` result carries no invoked
provider, so no backend client's `generate` runs. -/
theorem manager_no_backends (defaultProvider : String) (requested : Option String) :
    managerGenerate [] defaultProvider requested =
      .error "No LLM providers are configured" := by
  cases requested with
  | none => rfl
  | some s => simp [managerGenerate, assocLookup]

/-! ## C2 -/

/-- C2 — Backend selection with single-level fallback: with at least one
configured backend, a requested backend that is present is used; a requested
backend that is absent, or no request with the default absent, falls back to
the first configured backend; and in every case the call returns a result, not
an error. -/
theorem manager_single_level_fallback (providers : List (String × LLMResponse))
    (defaultProvider : String) (requested : Option String) (hne : providers ≠ []) :
    (∀ name llm, requested = some name → name ≠ "" →
        assocLookup providers name = some llm →
        managerGenerate providers defaultProvider requested = .ok (name, llm)) ∧
    (∀ name, requested = some name → name ≠ "" →
        assocLookup providers name = none →
        ∃ hd tl, providers = hd :: tl ∧
          managerGenerate providers defaultProvider requested = .ok hd) ∧
    (requested = none → assocLookup providers defaultProvider = none →
        ∃ hd tl, providers = hd :: tl ∧
          managerGenerate providers defaultProvider requested = .ok hd) ∧
    (∃ p, managerGenerate providers defaultProvider requested = .ok p) := by
  obtain ⟨hd, tl, rfl⟩ : ∃ hd tl, providers = hd :: tl := by
    cases providers with
    | nil => exact absurd rfl hne
    | cons a l => exact ⟨a, l, rfl⟩
  refine ⟨?_, ?_, ?_, ?_⟩
  · intro name llm hreq hname hlook
    subst hreq
    simp [managerGenerate, hname, hlook]
  · intro name hreq hname hlook
    subst hreq
    exact ⟨hd, tl, rfl, by simp [managerGenerate, hname, hlook]⟩
  · intro hreq hlook
    subst hreq
    exact ⟨hd, tl, rfl, by simp [managerGenerate, hlook]⟩
  · cases requested with
    | none =>
      cases hlook : assocLookup (hd :: tl) defaultProvider with
      | some llm => exact ⟨(defaultProvider, llm), by simp [managerGenerate, hlook]⟩
      | none => exact ⟨hd, by simp [managerGenerate, hlook]⟩
    | some name =>
      by_cases hname : name = ""
      · subst hname
        cases hlook : assocLookup (hd :: tl) defaultProvider with
        | some llm => exact ⟨(defaultProvider, llm), by simp [managerGenerate, hlook]⟩
        | none => exact ⟨hd, by simp [managerGenerate, hlook]⟩
      · cases hlook : assocLookup (hd :: tl) name with
        | some llm => exact ⟨(name, llm), by simp [managerGenerate, hname, hlook]⟩
        | none => exact ⟨hd, by simp [managerGenerate, hname, hlook]⟩

/-- Witness for C2: backends `{openrouter absent, ollama present}`; requesting
`openrouter` yields the result of the first (and only) configured backend. -/
theorem manager_single_level_fallback_witness :
    managerGenerate [("ollama", sampleResponseB)] "ollama" (some "openrouter") =
      .ok ("ollama", sampleResponseB) := by
  obtain ⟨-, h2, -, -⟩ :=
    manager_single_level_fallback [("ollama", sampleResponseB)] "ollama"
      (some "openrouter") (by simp)
  obtain ⟨hd, tl, hp, hres⟩ := h2 "openrouter" rfl (by simp) (by decide)
  injection hp.symm with h1 h2'
  rw [h1] at hres
  exact hres

/-! ## C7 -/

/-- C7 — Cache keying: the cache path of a synthesized artifact is
`<cacheDir>/<md5(voice:text)>.wav`, with `"default"` substituted when the voice
is absent, and the two paths for `("voiceA","hello")` and `("voiceB","hello")`
are distinct. -/
theorem tts_cache_keying (svc : TTSService) (text : String) :
    (∀ voice : Option String,
        svc.getCachePath text (voiceOrDefault voice) =
          svc.cacheDir ++ "/" ++ md5Hex (voiceOrDefault voice ++ ":" ++ text) ++ ".wav") ∧
    voiceOrDefault none = "default" ∧
    svc.getCachePath "hello" "voiceA" ≠ svc.getCachePath "hello" "voiceB" := by
  refine ⟨fun voice => rfl, rfl, ?_⟩
  intro h
  simp only [TTSService.getCachePath] at h
  have h1 := string_append_cancel_left (string_append_cancel_right h)
  exact absurd h1 (by decide)

/-- Witness for C7 at the configured cache directory `/app/audio_cache`. -/
theorem tts_cache_keying_witness :
    TTSService.getCachePath ⟨"/app/audio_cache"⟩ "hello" "voiceA" ≠
      TTSService.getCachePath ⟨"/app/audio_cache"⟩ "hello" "voiceB" :=
  (tts_cache_keying ⟨"/app/audio_cache"⟩ "hello").2.2

/-! ## C6 -/

/-- C6 — Cache idempotence: if a `synthesize` call with `use_cache = true`
returns a path, then a second call for the same `(voice, text)` on the
resulting file system returns the same path with no network session, and the
two calls together open at most one session. -/
theorem tts_cache_idempotence (svc : TTSService) (s1 s2 : Except String (List WyEvent))
    (fs : List (String × WavFile)) (text : String) (voice : Option String) (p : String)
    (h : (svc.synthesize s1 fs text voice true).result = some p) :
    svc.synthesize s2 (svc.synthesize s1 fs text voice true).fs text voice true =
      ⟨some p, (svc.synthesize s1 fs text voice true).fs, 0⟩ ∧
    (svc.synthesize s1 fs text voice true).netCalls +
      (svc.synthesize s2 (svc.synthesize s1 fs text voice true).fs text voice true).netCalls ≤ 1 := by
  cases he : (text = "" || pyStrip text = "") with
  | true => simp [TTSService.synthesize, he] at h
  | false =>
    cases hhit : (assocLookup fs (svc.getCachePath text (voiceOrDefault voice))).isSome with
    | true =>
      have e1 : svc.synthesize s1 fs text voice true =
          ⟨some (svc.getCachePath text (voiceOrDefault voice)), fs, 0⟩ := by
        simp [TTSService.synthesize, he, hhit]
      rw [e1] at h
      obtain rfl : svc.getCachePath text (voiceOrDefault voice) = p := Option.some.inj h
      rw [e1]
      have e2 : svc.synthesize s2 fs text voice true =
          ⟨some (svc.getCachePath text (voiceOrDefault voice)), fs, 0⟩ := by
        simp [TTSService.synthesize, he, hhit]
      rw [e2]
      exact ⟨rfl, by simp⟩
    | false =>
      cases s1 with
      | error e =>
        have e1 : svc.synthesize (Except.error e) fs text voice true = ⟨none, fs, 1⟩ := by
          simp [TTSService.synthesize, he, hhit]
        rw [e1] at h
        cases h
      | ok events =>
        cases hr : recvLoop events defaultAudioParams [] with
        | none =>
          have e1 : svc.synthesize (Except.ok events) fs text voice true = ⟨none, fs, 1⟩ := by
            simp [TTSService.synthesize, he, hhit, hr]
          rw [e1] at h
          cases h
        | some pr =>
          obtain ⟨prm, audio⟩ := pr
          by_cases ha : audio = []
          · have e1 : svc.synthesize (Except.ok events) fs text voice true = ⟨none, fs, 1⟩ := by
              simp [TTSService.synthesize, he, hhit, hr, ha]
            rw [e1] at h
            cases h
          · have e1 : svc.synthesize (Except.ok events) fs text voice true =
                ⟨some (svc.getCachePath text (voiceOrDefault voice)),
                  (svc.getCachePath text (voiceOrDefault voice), ⟨prm, audio⟩) :: fs, 1⟩ := by
              simp [TTSService.synthesize, he, hhit, hr, ha]
            rw [e1] at h
            obtain rfl : svc.getCachePath text (voiceOrDefault voice) = p := Option.some.inj h
            rw [e1]
            have hhit2 : (assocLookup
                ((svc.getCachePath text (voiceOrDefault voice), (⟨prm, audio⟩ : WavFile)) :: fs)
                (svc.getCachePath text (voiceOrDefault voice))).isSome = true := by
              simp [assocLookup]
            have e2 : svc.synthesize s2
                ((svc.getCachePath text (voiceOrDefault voice), (⟨prm, audio⟩ : WavFile)) :: fs)
                text voice true =
                ⟨some (svc.getCachePath text (voiceOrDefault voice)),
                  (svc.getCachePath text (voiceOrDefault voice), (⟨prm, audio⟩ : WavFile)) :: fs, 0⟩ := by
              simp [TTSService.synthesize, he, hhit2]
            rw [e2]
            exact ⟨rfl, by simp⟩

/-- Witness for C6: first call succeeds over a session delivering one chunk;
the second call is served from the cache even though its session would fail. -/
theorem tts_cache_idempotence_witness :
    sampleTTS.synthesize (.error "down")
        (sampleTTS.synthesize
          (.ok [WyEvent.audioStart none none none, WyEvent.audioChunk [1, 2], WyEvent.audioStop])
          [] "hello" (some "voiceA") true).fs
        "hello" (some "voiceA") true =
      ⟨some (sampleTTS.getCachePath "hello" "voiceA"),
        (sampleTTS.synthesize
          (.ok [WyEvent.audioStart none none none, WyEvent.audioChunk [1, 2], WyEvent.audioStop])
          [] "hello" (some "voiceA") true).fs, 0⟩ :=
  (tts_cache_idempotence sampleTTS
    (.ok [WyEvent.audioStart none none none, WyEvent.audioChunk [1, 2], WyEvent.audioStop])
    (.error "down") [] "hello" (some "voiceA")
    (sampleTTS.getCachePath "hello" "voiceA") (by decide)).1

/-! ## C8 -/

lemma recvLoop_stop_before_chunk (evs : List WyEvent) :
    ∀ (prm : AudioParams) (acc : List Nat), stopBeforeChunk evs = true →
      recvLoop evs prm acc = none ∨ ∃ q, recvLoop evs prm acc = some (q, acc) := by
  induction evs with
  | nil => exact fun prm acc _ => Or.inl rfl
  | cons e rest ih =>
    intro prm acc h
    cases e with
    | audioStop => exact Or.inr ⟨prm, rfl⟩
    | audioChunk d => simp [stopBeforeChunk] at h
    | audioStart r w c => exact ih _ acc (by simpa [stopBeforeChunk] using h)
    | other t => exact ih prm acc (by simpa [stopBeforeChunk] using h)

/-- C8 — Empty synthesis is failure: when the session delivers its stop (or
closes) before any chunk, `synthesize` returns no artifact and writes no file
under the cache key. -/
theorem tts_empty_synthesis_failure (svc : TTSService) (events : List WyEvent)
    (fs : List (String × WavFile)) (text : String) (voice : Option String) (use_cache : Bool)
    (htext : pyStrip text ≠ "")
    (hmiss : assocLookup fs (svc.getCachePath text (voiceOrDefault voice)) = none)
    (hstop : stopBeforeChunk events = true) :
    svc.synthesize (.ok events) fs text voice use_cache = ⟨none, fs, 1⟩ ∧
    assocLookup (svc.synthesize (.ok events) fs text voice use_cache).fs
      (svc.getCachePath text (voiceOrDefault voice)) = none := by
  have htext0 : text ≠ "" := by
    intro hh
    subst hh
    exact htext (by decide)
  have e1 : svc.synthesize (.ok events) fs text voice use_cache = ⟨none, fs, 1⟩ := by
    rcases recvLoop_stop_before_chunk events defaultAudioParams [] hstop with hr | ⟨q, hr⟩
    · simp [TTSService.synthesize, htext0, htext, hmiss, hr]
    · simp [TTSService.synthesize, htext0, htext, hmiss, hr]
  refine ⟨e1, ?_⟩
  rw [e1]
  exact hmiss

/-- Witness for C8: a session consisting of a bare `audio-stop`. -/
theorem tts_empty_synthesis_failure_witness :
    sampleTTS.synthesize (.ok [WyEvent.audioStop]) [] "hello" none true = ⟨none, [], 1⟩ ∧
    assocLookup (sampleTTS.synthesize (.ok [WyEvent.audioStop]) [] "hello" none true).fs
      (sampleTTS.getCachePath "hello" (voiceOrDefault none)) = none :=
  tts_empty_synthesis_failure sampleTTS [WyEvent.audioStop] [] "hello" none true
    (by decide) rfl rfl

/-! ## C9 -/

/-- C9 — Empty-text guard: empty or all-whitespace text yields no artifact,
with no network session opened and the file system untouched. -/
theorem tts_empty_text_guard (svc : TTSService) (session : Except String (List WyEvent))
    (fs : List (String × WavFile)) (text : String) (voice : Option String) (use_cache : Bool)
    (h : text.data.all isPySpace = true) :
    svc.synthesize session fs text voice use_cache = ⟨none, fs, 0⟩ := by
  have hd : text.data.dropWhile isPySpace = [] :=
    List.dropWhile_eq_nil_iff.mpr fun x hx => List.all_eq_true.mp h x hx
  have hstrip : pyStrip text = "" := by
    simp [pyStrip, hd]
  simp [TTSService.synthesize, hstrip]

/-- Witness for C9: a single-space text. -/
theorem tts_empty_text_guard_witness :
    sampleTTS.synthesize (.error "down") [] " " none true = ⟨none, [], 0⟩ :=
  tts_empty_text_guard sampleTTS (.error "down") [] " " none true (by decide)

/-! ## C1 -/

/-- C1 — Commit-before-respond: a turn returns its reply only when the database
commit succeeded and committed the user/assistant pair of this exchange; when
the commit after a successful generation fails, the turn surfaces the commit
error to the caller and returns no reply. -/
theorem commit_before_respond (character_id user_id user_message : String)
    (game_context : Option GameContext) (from_character_id : Option String)
    (env : TurnEnv) :
    (∀ tr, send_message_with_memory character_id user_id user_message
        game_context from_character_id env = .ok tr →
        env.commitOk = true ∧
        tr.committedMessages = [⟨"user", user_message⟩, ⟨"assistant", tr.reply⟩]) ∧
    (∀ c r, env.character = some c → env.genOutcome = .ok r → env.commitOk = false →
        send_message_with_memory character_id user_id user_message
          game_context from_character_id env = .error .commitFailed) := by
  constructor
  · intro tr h
    rcases hc : env.character with _ | c
    · simp [send_message_with_memory, hc] at h
    · rcases hg : env.genOutcome with e | r
      · simp [send_message_with_memory, hc, hg] at h
      · cases hco : env.commitOk with
        | false => simp [send_message_with_memory, hc, hg, hco] at h
        | true =>
          simp only [send_message_with_memory, hc, hg, hco, if_true] at h
          obtain rfl := (Except.ok.inj h).symm
          exact ⟨rfl, rfl⟩
  · intro c r hc hg hco
    simp [send_message_with_memory, hc, hg, hco]

/-- Witness for C1: generation succeeded but the commit fails, so the caller
gets the commit error rather than the generated reply. -/
theorem commit_before_respond_witness :
    send_message_with_memory "char-1" "user-1" "hi" none none sampleEnvCommitFail =
      .error .commitFailed :=
  (commit_before_respond "char-1" "user-1" "hi" none none sampleEnvCommitFail).2
    sampleCharacter sampleResponseB rfl rfl rfl

/-- Inversion: when the character resolves, generation succeeds and the commit
succeeds, a turn returns exactly this record. -/
lemma send_ok_inversion (character_id user_id user_message : String)
    (game_context : Option GameContext) (from_character_id : Option String)
    (env : TurnEnv) (c : Character) (r : LLMResponse)
    (hc : env.character = some c) (hg : env.genOutcome = .ok r) (hco : env.commitOk = true) :
    send_message_with_memory character_id user_id user_message game_context
        from_character_id env =
      .ok ⟨r.content, user_id,
        [⟨"user", user_message⟩, ⟨"assistant", r.content⟩],
        ⟨"system", buildSystemContent c (turnCharMems env) (turnGlobalMems env)
            game_context (resolvedSender from_character_id env)⟩ ::
          env.recentMessages ++ [⟨"user", user_message⟩],
        buildSystemContent c (turnCharMems env) (turnGlobalMems env)
          game_context (resolvedSender from_character_id env),
        (if env.ttsEnabled then env.ttsOutcome.map (fun p => p.replace "/app/" "") else none),
        (if env.mem0Enabled then
            some (extract_memories_from_exchange character_id
              (effectiveUserId user_id from_character_id env) user_message r.content)
          else none)⟩ := by
  simp [send_message_with_memory, hc, hg, hco]

/-! ## C4 -/

/-- C4 — Graceful memory degradation: an engine failure makes both recall
helpers return the empty list rather than raising; empty memory lists
contribute no `What you remember` and no `General facts` section to the system
message; and a turn whose two memory lookups fail still completes successfully,
with a system message equal to the memory-free rendering. -/
theorem graceful_memory_degradation :
    (∀ err, MemoryService.get_character_memories (.error err) = [] ∧
        MemoryService.get_user_global_memories (.error err) = []) ∧
    (∀ s, addCharacterMemoriesSection s [] = s ∧ addGlobalMemoriesSection s [] = s) ∧
    (∀ character_id user_id user_message game_context from_character_id env
        (c : Character) (r : LLMResponse) e1 e2,
        env.character = some c → env.charMemEngine = .error e1 →
        env.globalMemEngine = .error e2 → env.genOutcome = .ok r → env.commitOk = true →
        ∃ tr, send_message_with_memory character_id user_id user_message game_context
            from_character_id env = .ok tr ∧
          tr.systemContent =
            buildSystemContent c [] [] game_context
              (resolvedSender from_character_id env) ∧
          tr.reply = r.content) := by
  refine ⟨fun err => ⟨rfl, rfl⟩, fun s => ⟨rfl, rfl⟩, ?_⟩
  intro character_id user_id user_message game_context from_character_id env c r e1 e2
    hc h1 h2 hg hco
  have hcm : turnCharMems env = [] := by
    simp [turnCharMems, h1, MemoryService.get_character_memories]
  have hgm : turnGlobalMems env = [] := by
    simp [turnGlobalMems, h2, MemoryService.get_user_global_memories]
  refine ⟨_, send_ok_inversion character_id user_id user_message game_context
    from_character_id env c r hc hg hco, ?_, rfl⟩
  rw [show (buildSystemContent c (turnCharMems env) (turnGlobalMems env) game_context
      (resolvedSender from_character_id env)) =
    buildSystemContent c [] [] game_context (resolvedSender from_character_id env) by
    rw [hcm, hgm]]

/-- Witness for C4: both recalls fail, yet the turn returns a reply and its
system message is the memory-free rendering. -/
theorem graceful_memory_degradation_witness :
    ∃ tr, send_message_with_memory "char-1" "user-1" "hi" none none sampleEnvMemFail =
        .ok tr ∧
      tr.systemContent = buildSystemContent sampleCharacter [] [] none none ∧
      tr.reply = sampleResponseB.content :=
  graceful_memory_degradation.2.2 "char-1" "user-1" "hi" none none sampleEnvMemFail
    sampleCharacter sampleResponseB "engine down" "engine down" rfl rfl rfl rfl rfl

/-! ## C5 -/

lemma addCharacterMemoriesSection_extends (s : String) (mems : List MemoryRecord) :
    ∃ t, addCharacterMemoriesSection s mems = s ++ t := by
  by_cases hm : mems.isEmpty = true
  · exact ⟨"", by simp [addCharacterMemoriesSection, hm, String.append_empty]⟩
  · obtain ⟨t, ht⟩ := foldl_append_extend memEntry mems
      (s ++ "\n\n**What you remember about this user:**\n")
    exact ⟨"\n\n**What you remember about this user:**\n" ++ t,
      by simp [addCharacterMemoriesSection, hm, ht, String.append_assoc]⟩

lemma addGlobalMemoriesSection_extends (s : String) (mems : List MemoryRecord) :
    ∃ t, addGlobalMemoriesSection s mems = s ++ t := by
  by_cases hm : mems.isEmpty = true
  · exact ⟨"", by simp [addGlobalMemoriesSection, hm, String.append_empty]⟩
  · obtain ⟨t, ht⟩ := foldl_append_extend memEntry mems
      (s ++ "\n\n**General facts about this user:**\n")
    exact ⟨"\n\n**General facts about this user:**\n" ++ t,
      by simp [addGlobalMemoriesSection, hm, ht, String.append_assoc]⟩

lemma addGameContextSection_extends (s : String) (gc : Option GameContext) :
    ∃ t, addGameContextSection s gc = s ++ t := by
  cases gc with
  | none => exact ⟨"", (String.append_empty s).symm⟩
  | some g =>
    refine ⟨"\n\n**Current Game State:**\n" ++
      (optStrLine "Location: " g.location ++
      (optStrLine "Weather: " g.weather ++
      (optStrLine "Time: " g.time_of_day ++
      (optIntLine "Your health: " "%" g.npc_health ++
      (optIntLine "Player health: " "%" g.player_health ++
      (optIntLine "Player reputation: " "" g.player_reputation ++
      (optStrLine "Your mood: " g.npc_mood ++
      (optStrLine "Recent event: " g.recent_event ++
      ((if g.nearby_npcs.isEmpty then ""
        else "Nearby NPCs: " ++ String.intercalate ", " g.nearby_npcs ++ "\n") ++
      g.custom_data.foldl (fun acc kv => acc ++ (kv.1 ++ ": " ++ kv.2 ++ "\n")) ""))))))))), ?_⟩
    simp only [addGameContextSection, String.append_assoc]

/-- The system message extends the document section: everything after it is
appended on the right. -/
lemma buildSystemContent_decomp (c : Character) (cm gm : List MemoryRecord)
    (gc : Option GameContext) (rs : Option Character) :
    ∃ t, buildSystemContent c cm gm gc rs =
      addDocumentsSection c.system_prompt c.documents ++ t := by
  obtain ⟨t1, h1⟩ :=
    addCharacterMemoriesSection_extends (addDocumentsSection c.system_prompt c.documents) cm
  obtain ⟨t2, h2⟩ := addGlobalMemoriesSection_extends
    (addCharacterMemoriesSection (addDocumentsSection c.system_prompt c.documents) cm) gm
  obtain ⟨t3, h3⟩ := addGameContextSection_extends
    (addGlobalMemoriesSection
      (addCharacterMemoriesSection (addDocumentsSection c.system_prompt c.documents) cm) gm) gc
  cases rs with
  | none =>
    refine ⟨t1 ++ (t2 ++ t3), ?_⟩
    show addGameContextSection
        (addGlobalMemoriesSection
          (addCharacterMemoriesSection (addDocumentsSection c.system_prompt c.documents) cm) gm)
        gc =
      addDocumentsSection c.system_prompt c.documents ++ (t1 ++ (t2 ++ t3))
    rw [h3, h2, h1, String.append_assoc, String.append_assoc]
  | some fc =>
    refine ⟨t1 ++ (t2 ++ (t3 ++ crossPersonaNote fc.name)), ?_⟩
    show addGameContextSection
        (addGlobalMemoriesSection
          (addCharacterMemoriesSection (addDocumentsSection c.system_prompt c.documents) cm) gm)
        gc ++ crossPersonaNote fc.name =
      addDocumentsSection c.system_prompt c.documents ++
        (t1 ++ (t2 ++ (t3 ++ crossPersonaNote fc.name)))
    rw [h3, h2, h1, String.append_assoc, String.append_assoc, String.append_assoc]

/-- C5 — Document truncation: every document of the mem0 turn path enters the
system message as its first 2000 characters (`doc.content[:2000]`); a
5000-character body is cut to length exactly 2000, a strict initial segment of
the body; and the legacy `send_message` path — the only other context builder —
inserts bodies whole, performing no truncation of its own. -/
theorem document_truncation :
    (∀ s docs d, d ∈ docs →
        ∃ u v, addDocumentsSection s docs = u ++ docEntry d ++ v) ∧
    (∀ body : String, body.data.length = 5000 →
        (pyTake 2000 body).data.length = 2000 ∧
        body.data = (pyTake 2000 body).data ++ body.data.drop 2000) ∧
    (∀ character_id user_id user_message game_context from_character_id env
        (c : Character) (r : LLMResponse) d,
        env.character = some c → env.genOutcome = .ok r → env.commitOk = true →
        d ∈ c.documents →
        ∃ tr u v, send_message_with_memory character_id user_id user_message game_context
            from_character_id env = .ok tr ∧
          tr.systemContent = u ++ docEntry d ++ v) ∧
    (∀ s docs d, d ∈ docs →
        ∃ u v, addDocumentsSectionLegacy s docs = u ++ docEntryLegacy d ++ v) := by
  have hsec : ∀ (s : String) (docs : List CharacterDocument) d, d ∈ docs →
      ∃ u v, addDocumentsSection s docs = u ++ docEntry d ++ v := by
    intro s docs d hd
    have hne : docs.isEmpty = false := by
      cases docs with
      | nil => exact absurd hd (List.not_mem_nil d)
      | cons a l => rfl
    rw [addDocumentsSection, hne]
    exact foldl_append_mem docEntry docs _ d hd
  refine ⟨hsec, ?_, ?_, ?_⟩
  · intro body hlen
    constructor
    · show (body.data.take 2000).length = 2000
      rw [List.length_take, hlen]
      decide
    · exact (List.take_append_drop 2000 body.data).symm
  · intro character_id user_id user_message game_context from_character_id env c r d
      hc hg hco hd
    obtain ⟨t, hdecomp⟩ := buildSystemContent_decomp c (turnCharMems env)
      (turnGlobalMems env) game_context (resolvedSender from_character_id env)
    obtain ⟨u, v, hdocs⟩ := hsec c.system_prompt c.documents d hd
    refine ⟨_, u, v ++ t, send_ok_inversion character_id user_id user_message game_context
      from_character_id env c r hc hg hco, ?_⟩
    show buildSystemContent c (turnCharMems env) (turnGlobalMems env) game_context
      (resolvedSender from_character_id env) = u ++ docEntry d ++ (v ++ t)
    rw [hdecomp, hdocs, String.append_assoc]
  · intro s docs d hd
    have hne : docs.isEmpty = false := by
      cases docs with
      | nil => exact absurd hd (List.not_mem_nil d)
      | cons a l => rfl
    rw [addDocumentsSectionLegacy, hne]
    exact foldl_append_mem docEntryLegacy docs _ d hd

/-- Witness for C5: a 5000-character document body reaches the system message
as its first 2000 characters. -/
theorem document_truncation_witness :
    (pyTake 2000 bigBody).data.length = 2000 ∧
    (∃ tr u v, send_message_with_memory "char-2" "user-1" "hi" none none sampleEnvDoc =
        .ok tr ∧
      tr.systemContent = u ++ docEntry ⟨"lore.txt", bigBody⟩ ++ v) := by
  have hlen : bigBody.data.length = 5000 := by
    show (List.replicate 5000 'a').length = 5000
    rw [List.length_replicate]
  refine ⟨(document_truncation.2.1 bigBody hlen).1, ?_⟩
  exact document_truncation.2.2.1 "char-2" "user-1" "hi" none none sampleEnvDoc
    sampleDocChar sampleResponseB ⟨"lore.txt", bigBody⟩ rfl rfl rfl (by simp [sampleDocChar])

/-! ## C10 -/

/-- C10 — Cross-persona memory attribution: when a sender persona id is given
and resolves, post-turn memory extraction is recorded under subject
`character_<senderPersonaId>` while the conversation (and its committed
message pair) stays under the original user id; when the sender id does not
resolve, the original user id is used throughout. -/
theorem cross_persona_memory_attribution (character_id user_id user_message : String)
    (game_context : Option GameContext) (fid : String) (env : TurnEnv)
    (c : Character) (r : LLMResponse)
    (hc : env.character = some c) (hg : env.genOutcome = .ok r)
    (hco : env.commitOk = true) (hm : env.mem0Enabled = true) :
    (∀ fc, env.fromCharLookup = some fc →
        ∃ tr, send_message_with_memory character_id user_id user_message game_context
            (some fid) env = .ok tr ∧
          tr.conversationUserId = user_id ∧
          tr.memoryExtraction = some ⟨"character_" ++ fid, "character_" ++ character_id,
            [⟨"user", user_message⟩, ⟨"assistant", r.content⟩]⟩) ∧
    (env.fromCharLookup = none →
        ∃ tr, send_message_with_memory character_id user_id user_message game_context
            (some fid) env = .ok tr ∧
          tr.conversationUserId = user_id ∧
          tr.memoryExtraction = some ⟨user_id, "character_" ++ character_id,
            [⟨"user", user_message⟩, ⟨"assistant", r.content⟩]⟩) := by
  constructor
  · intro fc hl
    refine ⟨_, send_ok_inversion character_id user_id user_message game_context
      (some fid) env c r hc hg hco, rfl, ?_⟩
    simp [hm, extract_memories_from_exchange, MemoryService.add_character_memory,
      effectiveUserId, hl]
  · intro hl
    refine ⟨_, send_ok_inversion character_id user_id user_message game_context
      (some fid) env c r hc hg hco, rfl, ?_⟩
    simp [hm, extract_memories_from_exchange, MemoryService.add_character_memory,
      effectiveUserId, hl]

/-- Witness for C10: an NPC-to-NPC turn routes memory extraction to
`character_char-9` while the conversation stays under `user-1`. -/
theorem cross_persona_memory_attribution_witness :
    ∃ tr, send_message_with_memory "char-1" "user-1" "hi" none (some "char-9")
        sampleEnvCross = .ok tr ∧
      tr.conversationUserId = "user-1" ∧
      tr.memoryExtraction = some ⟨"character_" ++ "char-9", "character_" ++ "char-1",
        [⟨"user", "hi"⟩, ⟨"assistant", sampleResponseB.content⟩]⟩ :=
  (cross_persona_memory_attribution "char-1" "user-1" "hi" none "char-9" sampleEnvCross
    sampleCharacter sampleResponseB rfl rfl rfl rfl).1 sampleSender rfl
